import Mathlib

/-!
Verification of the `Universe` component of a Rust/WASM Game-of-Life crate
(`src/lib.rs`), shallowly embedded in Lean 4.

Modelling conventions:
* Rust `u32` values (`width`, `height`, row/column arguments) are modelled as
  `Nat`; none of the verified properties depends on 32-bit wraparound, and the
  source arithmetic stays below `2^32` for any universe whose cell vector is
  actually allocatable.
* `Vec<Cell>` is modelled as `List Cell`; `String` output is modelled as
  `List Char`.
* Rust panics (out-of-range indexing, `chunks(0)`, `rem_euclid(0)`) are
  modelled by `Option`: `none` is a panic.  Reads that every theorem's
  hypotheses keep in range (`self.cells[idx]` inside `live_neighbor_count`
  and `tick`) use `List.getD` with default `Cell.Dead`.
* The JavaScript random source `js_sys::Math::random()` is an external
  collaborator; it is modelled as an oracle `rand : Nat → ℚ` giving the
  sample drawn at the i-th call of the surrounding loop.
-/

inductive Cell : Type
  | Dead : Cell
  | Alive : Cell
deriving DecidableEq, Repr

/-- Numeric value of a cell, as in the Rust cast `self.cells[idx] as u8`
(`Dead = 0`, `Alive = 1`). -/
def Cell.toNum : Cell → Nat
  | Cell.Dead => 0
  | Cell.Alive => 1

/-- Rust `Cell::toggle`: flips `Dead ↔ Alive`. -/
def Cell.toggle : Cell → Cell
  | Cell.Dead => Cell.Alive
  | Cell.Alive => Cell.Dead

structure Universe : Type where
  width : Nat
  height : Nat
  cells : List Cell
deriving DecidableEq, Repr

/-- Rust `Universe::get_index`: `(row * self.width + column) as usize`. -/
def Universe.get_index (u : Universe) (row column : Nat) : Nat :=
  row * u.width + column

/-- Rust `Universe::live_neighbor_count`.  Note that the SOURCE iterates the
column offset `delta_col` over `[self.height - 1, 0, 1]` — `height`, not
`width` — which this embedding reproduces faithfully. -/
def Universe.live_neighbor_count (u : Universe) (row column : Nat) : Nat :=
  [u.height - 1, 0, 1].foldl (fun count delta_row =>
    [u.height - 1, 0, 1].foldl (fun count delta_col =>
      if delta_row = 0 ∧ delta_col = 0 then
        count
      else
        let neighbor_row := (row + delta_row) % u.height
        let neighbor_col := (column + delta_col) % u.width
        let idx := u.get_index neighbor_row neighbor_col
        count + (u.cells.getD idx Cell.Dead).toNum) count) 0

/-- Modelled from the spec (for comparison with the implementation): the
neighbour count the specification describes, with the COLUMN offset iterating
over `[width - 1, 0, 1]`, i.e. column offsets −1, 0, +1 taken modulo `width`. -/
def Universe.spec_live_neighbor_count (u : Universe) (row column : Nat) : Nat :=
  [u.height - 1, 0, 1].foldl (fun count delta_row =>
    [u.width - 1, 0, 1].foldl (fun count delta_col =>
      if delta_row = 0 ∧ delta_col = 0 then
        count
      else
        let neighbor_row := (row + delta_row) % u.height
        let neighbor_col := (column + delta_col) % u.width
        let idx := u.get_index neighbor_row neighbor_col
        count + (u.cells.getD idx Cell.Dead).toNum) count) 0

/-- Cell produced by one draw of the random source, as in `Universe::new` and
`Universe::reset`: `if js_sys::Math::random() > 0.5 { Dead } else { Alive }`. -/
def randomCell (sample : ℚ) : Cell :=
  if sample > 1/2 then Cell.Dead else Cell.Alive

/-- Rust `Universe::new`: fixed 64×64 grid, each cell drawn from the random
source (modelled by the oracle `rand`, giving the i-th sample). -/
def Universe.new (rand : Nat → ℚ) : Universe :=
  { width := 64, height := 64,
    cells := (List.range (64 * 64)).map fun i => randomCell (rand i) }

/-- Rust `Universe::set_width`: sets the width and reallocates `cells` to
`width * self.height` entries, all `Dead`. -/
def Universe.set_width (u : Universe) (width : Nat) : Universe :=
  { u with width := width,
           cells := (List.range (width * u.height)).map fun _ => Cell.Dead }

/-- Rust `Universe::set_height`: sets the height and reallocates `cells` to
`self.width * height` entries, all `Dead`. -/
def Universe.set_height (u : Universe) (height : Nat) : Universe :=
  { u with height := height,
           cells := (List.range (u.width * height)).map fun _ => Cell.Dead }

/-- Rust `Universe::kill`: every cell becomes `Dead`, dimensions kept. -/
def Universe.kill (u : Universe) : Universe :=
  { u with cells := (List.range (u.width * u.height)).map fun _ => Cell.Dead }

/-- Rust `Universe::reset`: re-randomizes every cell, dimensions kept. -/
def Universe.reset (u : Universe) (rand : Nat → ℚ) : Universe :=
  { u with cells := (List.range (u.width * u.height)).map fun i => randomCell (rand i) }

/-- Rust `self.cells[idx] = Cell::Alive`: `none` models the out-of-bounds
indexing panic.  Shared by `set_cells`, `add_glider` and `add_pulsar`. -/
def Universe.writeAlive (u : Universe) (idx : Nat) : Option Universe :=
  if idx < u.cells.length then
    some { u with cells := u.cells.set idx Cell.Alive }
  else
    none

/-- Rust `Universe::set_cells`: sets each listed `(row, col)` to `Alive`. -/
def Universe.set_cells (u : Universe) (coords : List (Nat × Nat)) : Option Universe :=
  coords.foldlM (fun v rc => v.writeAlive (v.get_index rc.1 rc.2)) u

/-- Rust `Universe::toggle_cell`: `self.cells[self.get_index(row, col)].toggle()`;
`none` models the indexing panic. -/
def Universe.toggle_cell (u : Universe) (row col : Nat) : Option Universe :=
  let idx := u.get_index row col
  if h : idx < u.cells.length then
    some { u with cells := u.cells.set idx (u.cells.get ⟨idx, h⟩).toggle }
  else
    none

/-- Offsets of the five glider cells in `Universe::add_glider`. -/
def gliderOffsets : List (Int × Int) :=
  [(-1, 0), (0, 1), (1, -1), (1, 0), (1, 1)]

/-- Rust `Universe::add_glider`: stamps the five glider cells, wrapping each
offset with `rem_euclid` against `height`/`width` (which panics — `none` —
when the corresponding dimension is `0`). -/
def Universe.add_glider (u : Universe) (row col : Int) : Option Universe :=
  if u.height = 0 ∨ u.width = 0 then none
  else
    gliderOffsets.foldlM (fun v xy =>
      let xx := ((row + xy.1).emod (u.height : Int)).toNat
      let yy := ((col + xy.2).emod (u.width : Int)).toNat
      v.writeAlive (v.get_index xx yy)) u

/-- Offsets of the 48 pulsar cells in `Universe::add_pulsar`. -/
def pulsarOffsets : List (Int × Int) :=
  [(-6, -4), (-6, -3), (-6, -2), (-6, 2), (-6, 3), (-6, 4),
   (-4, -6), (-4, -1), (-4, 1), (-4, 6),
   (-3, -6), (-3, -1), (-3, 1), (-3, 6),
   (-2, -6), (-2, -1), (-2, 1), (-2, 6),
   (-1, -4), (-1, -3), (-1, -2), (-1, 2), (-1, 3), (-1, 4),
   (6, -4), (6, -3), (6, -2), (6, 2), (6, 3), (6, 4),
   (4, -6), (4, -1), (4, 1), (4, 6),
   (3, -6), (3, -1), (3, 1), (3, 6),
   (2, -6), (2, -1), (2, 1), (2, 6),
   (1, -4), (1, -3), (1, -2), (1, 2), (1, 3), (1, 4)]

/-- Rust `Universe::add_pulsar`: stamps the 48 pulsar cells, with the same
wrapping as `add_glider`. -/
def Universe.add_pulsar (u : Universe) (row col : Int) : Option Universe :=
  if u.height = 0 ∨ u.width = 0 then none
  else
    pulsarOffsets.foldlM (fun v xy =>
      let xx := ((row + xy.1).emod (u.height : Int)).toNat
      let yy := ((col + xy.2).emod (u.width : Int)).toNat
      v.writeAlive (v.get_index xx yy)) u

/-- The `match (cell, live_neighbors)` arm list inside `Universe::tick`,
arm by arm in source order. -/
def next_cell_rule (cell : Cell) (live_neighbors : Nat) : Cell :=
  match cell, live_neighbors with
  | Cell.Alive, x =>
      if x < 2 then Cell.Dead
      else if x = 2 then Cell.Alive
      else if x = 3 then Cell.Alive
      else if x > 3 then Cell.Dead
      else Cell.Alive
  | Cell.Dead, x => if x = 3 then Cell.Alive else Cell.Dead

/-- Rust `Universe::tick`: clones `cells` into `next`, then for every
`row < height`, `col < width` overwrites `next[get_index(row, col)]` with the
rule applied to the CURRENT cell and its CURRENT live-neighbor count, and
finally installs `next`. -/
def Universe.tick (u : Universe) : Universe :=
  { u with cells :=
      (List.range u.height).foldl (fun next row =>
        (List.range u.width).foldl (fun next col =>
          let idx := u.get_index row col
          let cell := u.cells.getD idx Cell.Dead
          let live_neighbors := u.live_neighbor_count row col
          next.set idx (next_cell_rule cell live_neighbors)) next) u.cells }

/-- Rust `<[Cell]>::chunks(n)` for `n ≥ 1`: non-overlapping chunks in order,
the last possibly shorter.  (`chunks(0)` panics; `Universe.render` below
models that separately.) -/
def chunksGo (n : Nat) : List Cell → List (List Cell)
  | [] => []
  | a :: rest => (a :: rest.take (n - 1)) :: chunksGo n (rest.drop (n - 1))
termination_by l => l.length
decreasing_by
  simp only [List.length_drop, List.length_cons]
  omega

/-- Glyph for one cell in the `fmt::Display` impl: `'◻'` for `Dead`,
`'◼'` for `Alive`. -/
def glyph (c : Cell) : Char :=
  if c = Cell.Dead then '◻' else '◼'

/-- Rust `impl fmt::Display for Universe` followed by `Universe::render`:
chunks `cells` into rows of `width`, writes one glyph per cell and a newline
after each row.  `chunks` panics when `width = 0`, modelled by `none`;
the output `String` is modelled as a `List Char`. -/
def Universe.render (u : Universe) : Option (List Char) :=
  if u.width = 0 then none
  else
    some ((chunksGo u.width u.cells).foldl
      (fun acc line => acc ++ line.map glyph ++ ['\n']) [])

/-- The length invariant of the data model: `cells.length == width * height`. -/
def Universe.GoodDims (u : Universe) : Prop :=
  u.cells.length = u.width * u.height

instance (u : Universe) : Decidable u.GoodDims := by
  unfold Universe.GoodDims
  infer_instance

/-- A 3-row, 2-column universe whose only live cell is at `(0, 0)`. -/
def exNeighbor : Universe :=
  { width := 2, height := 3,
    cells := [Cell.Alive, Cell.Dead, Cell.Dead, Cell.Dead, Cell.Dead, Cell.Dead] }

/-- A 5-row, 4-column universe whose live cells are exactly the 2×2 block at
rows 1–2, columns 1–2 (flat indices 5, 6, 9, 10). -/
def exBlock : Universe :=
  { width := 4, height := 5,
    cells := [Cell.Dead, Cell.Dead, Cell.Dead, Cell.Dead,
              Cell.Dead, Cell.Alive, Cell.Alive, Cell.Dead,
              Cell.Dead, Cell.Alive, Cell.Alive, Cell.Dead,
              Cell.Dead, Cell.Dead, Cell.Dead, Cell.Dead,
              Cell.Dead, Cell.Dead, Cell.Dead, Cell.Dead] }

/-- A 3×3 universe whose only live cell is the center `(1, 1)` — the grid used
by the specification's tick-atomicity example. -/
def exCenter : Universe :=
  { width := 3, height := 3,
    cells := [Cell.Dead, Cell.Dead, Cell.Dead,
              Cell.Dead, Cell.Alive, Cell.Dead,
              Cell.Dead, Cell.Dead, Cell.Dead] }

/-- A 1×1 all-dead universe, used to instantiate universally quantified
theorems. -/
def exOne : Universe :=
  { width := 1, height := 1, cells := [Cell.Dead] }

/-- A 2-row, 1-column all-dead universe. -/
def exTall : Universe :=
  { width := 1, height := 2, cells := [Cell.Dead, Cell.Dead] }

/-- Dimension agreement between two universes: same width, same height, same
cell-buffer length.  Every in-place write in the source preserves it. -/
def SameDims (v u : Universe) : Prop :=
  v.width = u.width ∧ v.height = u.height ∧ v.cells.length = u.cells.length

/-! ### Helper lemmas -/

lemma Cell.toggle_toggle (c : Cell) : c.toggle.toggle = c := by
  cases c <;> rfl

lemma index_lt {row col w h : Nat} (hr : row < h) (hc : col < w) :
    row * w + col < w * h :=
  calc row * w + col < (row + 1) * w := by rw [Nat.succ_mul]; omega
    _ ≤ h * w := Nat.mul_le_mul_right w hr
    _ = w * h := Nat.mul_comm h w

lemma set_self_eq (l : List Cell) (i : Nat) (h : i < l.length) :
    l.set i l[i] = l := by
  apply List.ext_getElem
  · simp
  · intro n h1 h2
    rcases eq_or_ne i n with rfl | hne
    · exact List.getElem_set_self h1
    · exact List.getElem_set_of_ne hne _ _

lemma sameDims_refl (u : Universe) : SameDims u u :=
  ⟨rfl, rfl, rfl⟩

lemma sameDims_trans {w v u : Universe} (h1 : SameDims w v) (h2 : SameDims v u) :
    SameDims w u := by
  obtain ⟨a1, b1, c1⟩ := h1
  obtain ⟨a2, b2, c2⟩ := h2
  exact ⟨a1.trans a2, b1.trans b2, c1.trans c2⟩

lemma goodDims_of_sameDims {v u : Universe} (h : SameDims v u) (hu : u.GoodDims) :
    v.GoodDims := by
  obtain ⟨a, b, c⟩ := h
  unfold Universe.GoodDims at *
  rw [a, b, c, hu]

lemma writeAlive_sameDims {u v : Universe} {idx : Nat}
    (h : u.writeAlive idx = some v) : SameDims v u := by
  unfold Universe.writeAlive at h
  split at h
  · cases h
    exact ⟨rfl, rfl, by simp⟩
  · cases h

lemma foldlM_sameDims {β : Type} (step : Universe → β → Option Universe)
    (hstep : ∀ v a v', step v a = some v' → SameDims v' v) :
    ∀ (l : List β) (u u' : Universe), l.foldlM step u = some u' → SameDims u' u := by
  intro l
  induction l with
  | nil =>
    intro u u' h
    simp only [List.foldlM_nil, pure, Option.some_inj] at h
    rw [h]
    exact sameDims_refl u'
  | cons a l ih =>
    intro u u' h
    rw [List.foldlM_cons] at h
    obtain ⟨v, hv, hrest⟩ := Option.bind_eq_some.mp h
    exact sameDims_trans (ih v u' hrest) (hstep u a v hv)

lemma foldl_set_length {α : Type} (F : Nat → α) (base : Nat) :
    ∀ (m : Nat) (nx : List α),
      ((List.range m).foldl (fun l c => l.set (base + c) (F c)) nx).length
        = nx.length := by
  intro m
  induction m with
  | zero => intro nx; simp
  | succ k ih =>
    intro nx
    rw [List.range_succ, List.foldl_append, List.foldl_cons, List.foldl_nil,
      List.length_set, ih]

lemma foldl_set_getElem_out {α : Type} (F : Nat → α) (base : Nat) :
    ∀ (m : Nat) (nx : List α) (i : Nat), i < base ∨ base + m ≤ i →
      ((List.range m).foldl (fun l c => l.set (base + c) (F c)) nx)[i]?
        = nx[i]? := by
  intro m
  induction m with
  | zero => intro nx i _; simp
  | succ k ih =>
    intro nx i hi
    rw [List.range_succ, List.foldl_append, List.foldl_cons, List.foldl_nil,
      List.getElem?_set_ne (by omega), ih nx i (by omega)]

lemma foldl_set_getElem_in {α : Type} (F : Nat → α) (base : Nat) :
    ∀ (m : Nat) (nx : List α) (c : Nat), c < m → base + c < nx.length →
      ((List.range m).foldl (fun l c => l.set (base + c) (F c)) nx)[base + c]?
        = some (F c) := by
  intro m
  induction m with
  | zero => intro nx c hc; omega
  | succ k ih =>
    intro nx c hc hlen
    rw [List.range_succ, List.foldl_append, List.foldl_cons, List.foldl_nil]
    rcases eq_or_ne c k with rfl | hne
    · exact List.getElem?_set_self (by rw [foldl_set_length]; exact hlen)
    · rw [List.getElem?_set_ne (by omega)]
      exact ih nx c (by omega) hlen

lemma grid_fold_length {α : Type} (g : Nat → Nat → α) (w : Nat) :
    ∀ (h : Nat) (nx : List α),
      ((List.range h).foldl (fun nx row =>
        (List.range w).foldl (fun nx col =>
          nx.set (row * w + col) (g row col)) nx) nx).length = nx.length := by
  intro h
  induction h with
  | zero => intro nx; simp
  | succ k ih =>
    intro nx
    rw [List.range_succ, List.foldl_append, List.foldl_cons, List.foldl_nil,
      foldl_set_length, ih]

lemma grid_fold_getElem {α : Type} (g : Nat → Nat → α) (w : Nat) :
    ∀ (h : Nat) (nx : List α) (row col : Nat),
      row < h → col < w → row * w + col < nx.length →
      ((List.range h).foldl (fun nx row =>
        (List.range w).foldl (fun nx col =>
          nx.set (row * w + col) (g row col)) nx) nx)[row * w + col]?
        = some (g row col) := by
  intro h
  induction h with
  | zero => intro nx row col hr; omega
  | succ k ih =>
    intro nx row col hr hc hlen
    rw [List.range_succ, List.foldl_append, List.foldl_cons, List.foldl_nil]
    rcases eq_or_ne row k with rfl | hne
    · exact foldl_set_getElem_in (g row) (row * w) w _ col hc
        (by rw [grid_fold_length]; exact hlen)
    · have hrow : row < k := by omega
      have hout : row * w + col < k * w :=
        lt_of_lt_of_le (by rw [Nat.succ_mul]; omega)
          (Nat.mul_le_mul_right w hrow)
      rw [foldl_set_getElem_out _ _ _ _ _ (Or.inl hout)]
      exact ih nx row col hrow hc hlen

lemma tick_cells_def (u : Universe) : u.tick.cells =
    (List.range u.height).foldl (fun next row =>
      (List.range u.width).foldl (fun next col =>
        next.set (row * u.width + col)
          (next_cell_rule (u.cells.getD (row * u.width + col) Cell.Dead)
            (u.live_neighbor_count row col))) next) u.cells := rfl

lemma tick_cells_getElem (u : Universe) (hu : u.GoodDims) {row col : Nat}
    (hr : row < u.height) (hc : col < u.width) :
    u.tick.cells[row * u.width + col]?
      = some (next_cell_rule (u.cells.getD (row * u.width + col) Cell.Dead)
          (u.live_neighbor_count row col)) := by
  have hlen : row * u.width + col < u.cells.length := by
    rw [hu]; exact index_lt hr hc
  rw [tick_cells_def]
  exact grid_fold_getElem
    (fun row col => next_cell_rule (u.cells.getD (row * u.width + col) Cell.Dead)
      (u.live_neighbor_count row col))
    u.width u.height u.cells row col hr hc hlen

lemma tick_cells_length (u : Universe) : u.tick.cells.length = u.cells.length := by
  rw [tick_cells_def]
  exact grid_fold_length _ u.width u.height u.cells

lemma chunksGo_eq (n : Nat) (hn : 1 ≤ n) :
    ∀ (k : Nat) (l : List Cell), l.length = n * k →
      chunksGo n l = (List.range k).map fun r => (l.drop (r * n)).take n := by
  intro k
  induction k with
  | zero =>
    intro l hl
    rw [Nat.mul_zero, List.length_eq_zero] at hl
    rw [hl]
    simp [chunksGo]
  | succ m ih =>
    intro l hl
    match l with
    | [] => simp [Nat.mul_succ] at hl; omega
    | a :: rest =>
      rw [chunksGo]
      have h1 : a :: rest.take (n - 1) = (a :: rest).take n := by
        conv_rhs => rw [show n = (n - 1) + 1 by omega]
        rw [List.take_succ_cons]
      have h2 : rest.drop (n - 1) = (a :: rest).drop n := by
        conv_rhs => rw [show n = (n - 1) + 1 by omega]
        rw [List.drop_succ_cons]
      have hdl : ((a :: rest).drop n).length = n * m := by
        rw [List.length_drop, hl, Nat.mul_succ]; omega
      rw [h1, h2, ih _ hdl, List.range_succ_eq_map, List.map_cons, List.map_map]
      congr 1
      · rw [Nat.zero_mul, List.drop_zero]
      · apply List.map_congr_left
        intro r _
        simp only [Function.comp_apply, List.drop_drop]
        congr 2
        rw [Nat.succ_mul, Nat.add_comm]

lemma take_drop_eq_map_getD (l : List Cell) (a b : Nat) (hab : a + b ≤ l.length) :
    (l.drop a).take b = (List.range b).map fun i => l.getD (a + i) Cell.Dead := by
  apply List.ext_getElem
  · rw [List.length_take, List.length_drop, List.length_map, List.length_range]
    omega
  · intro n h1 h2
    rw [List.getElem_take, List.getElem_drop]
    rw [List.length_take, List.length_drop] at h1
    have hn : n < b := by omega
    rw [List.getElem_map, List.getElem_range,
      List.getD_eq_getElem l Cell.Dead (by omega)]

lemma foldl_glyph_join :
    ∀ (ls : List (List Cell)) (acc : List Char),
      ls.foldl (fun a l => a ++ l.map glyph ++ ['\n']) acc
        = acc ++ (ls.map fun l => l.map glyph ++ ['\n']).flatten := by
  intro ls
  induction ls with
  | nil => intro acc; simp
  | cons l ls ih =>
    intro acc
    rw [List.foldl_cons, ih, List.map_cons, List.flatten_cons]
    simp [List.append_assoc]

/-! ### Claims -/

/-- C1 (code bug): `live_neighbor_count` does NOT compute the toroidal
neighbor count the claim describes.  The source iterates the column offset
over `[self.height - 1, 0, 1]` instead of `[self.width - 1, 0, 1]`, so in the
3×2 universe `exNeighbor`, whose only live cell is `(0, 0)`, the code counts
1 live neighbor for the cell `(0, 0)` itself (the pair
`(delta_row, delta_col) = (0, height - 1)` wraps back onto the cell), while
the count described by the claim — column offsets −1, 0, +1 modulo `width`,
excluding self — is 0. -/
theorem claim1_neighbor_count_bug :
    exNeighbor.live_neighbor_count 0 0 = 1 ∧
    exNeighbor.spec_live_neighbor_count 0 0 = 0 := by
  constructor <;> decide

/-- C2: after `tick`, the dimensions are unchanged and each in-range cell's
state equals the source's B3/S23 rule arm table (`next_cell_rule`) applied to
the cell's pre-tick state and its pre-tick `live_neighbor_count` — the next
grid is a pure function of the pre-tick grid, never of partially updated
neighbors. -/
theorem claim2_tick_rule (u : Universe) (hu : u.GoodDims) (row col : Nat)
    (hr : row < u.height) (hc : col < u.width) :
    u.tick.width = u.width ∧ u.tick.height = u.height ∧
    u.tick.cells.getD (u.get_index row col) Cell.Dead
      = next_cell_rule (u.cells.getD (u.get_index row col) Cell.Dead)
          (u.live_neighbor_count row col) := by
  refine ⟨rfl, rfl, ?_⟩
  simp only [Universe.get_index]
  rw [List.getD_eq_getElem?_getD, tick_cells_getElem u hu hr hc, Option.getD_some]

/-- Witness for C2 at the specification's own example: the 3×3 grid with a
single live center cell. -/
theorem claim2_witness :
    exCenter.GoodDims ∧ 1 < exCenter.height ∧ 1 < exCenter.width ∧
    (exCenter.tick.width = exCenter.width ∧
     exCenter.tick.height = exCenter.height ∧
     exCenter.tick.cells.getD (exCenter.get_index 1 1) Cell.Dead
       = next_cell_rule (exCenter.cells.getD (exCenter.get_index 1 1) Cell.Dead)
           (exCenter.live_neighbor_count 1 1)) :=
  ⟨by decide, by decide, by decide,
   claim2_tick_rule exCenter (by decide) 1 1 (by decide) (by decide)⟩

/-- C3: every public operation keeps `cells.length = width * height`
(`Universe.GoodDims`); the resizing operations reallocate to the new length.
Operations that can panic (`Option`-valued here) preserve the invariant
whenever they return. -/
theorem claim3_dims_invariant (rand rand2 : Nat → ℚ) (u : Universe)
    (hu : u.GoodDims) (w h r c : Nat) (coords : List (Nat × Nat))
    (gr gc pr pc : Int) :
    (Universe.new rand).GoodDims ∧
    (u.set_width w).GoodDims ∧
    (u.set_height h).GoodDims ∧
    u.kill.GoodDims ∧
    (u.reset rand2).GoodDims ∧
    u.tick.GoodDims ∧
    (∀ v, u.toggle_cell r c = some v → v.GoodDims) ∧
    (∀ v, u.set_cells coords = some v → v.GoodDims) ∧
    (∀ v, u.add_glider gr gc = some v → v.GoodDims) ∧
    (∀ v, u.add_pulsar pr pc = some v → v.GoodDims) := by
  refine ⟨?_, ?_, ?_, ?_, ?_, ?_, ?_, ?_, ?_, ?_⟩
  · simp [Universe.new, Universe.GoodDims]
  · simp [Universe.set_width, Universe.GoodDims]
  · simp [Universe.set_height, Universe.GoodDims]
  · simp [Universe.kill, Universe.GoodDims]
  · simp [Universe.reset, Universe.GoodDims]
  · unfold Universe.GoodDims at hu ⊢
    rw [tick_cells_length]
    exact hu
  · intro v hv
    simp only [Universe.toggle_cell] at hv
    split at hv
    · cases hv
      unfold Universe.GoodDims at hu ⊢
      simpa using hu
    · cases hv
  · intro v hv
    exact goodDims_of_sameDims
      (foldlM_sameDims _ (fun _ _ _ hs => writeAlive_sameDims hs) coords u v hv) hu
  · intro v hv
    unfold Universe.add_glider at hv
    split at hv
    · cases hv
    · exact goodDims_of_sameDims
        (foldlM_sameDims _ (fun _ _ _ hs => writeAlive_sameDims hs) gliderOffsets u v hv) hu
  · intro v hv
    unfold Universe.add_pulsar at hv
    split at hv
    · cases hv
    · exact goodDims_of_sameDims
        (foldlM_sameDims _ (fun _ _ _ hs => writeAlive_sameDims hs) pulsarOffsets u v hv) hu

/-- Witness for C3 at the 1×1 universe with trivial arguments. -/
theorem claim3_witness :
    exOne.GoodDims ∧
    ((Universe.new fun _ => 0).GoodDims ∧
     (exOne.set_width 1).GoodDims ∧
     (exOne.set_height 1).GoodDims ∧
     exOne.kill.GoodDims ∧
     (exOne.reset fun _ => 0).GoodDims ∧
     exOne.tick.GoodDims ∧
     (∀ v, exOne.toggle_cell 0 0 = some v → v.GoodDims) ∧
     (∀ v, exOne.set_cells [] = some v → v.GoodDims) ∧
     (∀ v, exOne.add_glider 0 0 = some v → v.GoodDims) ∧
     (∀ v, exOne.add_pulsar 0 0 = some v → v.GoodDims)) :=
  ⟨by decide,
   claim3_dims_invariant (fun _ => 0) (fun _ => 0) exOne (by decide) 1 1 0 0 [] 0 0 0 0⟩

/-- C4 (code bug): a 2×2 block of live cells is NOT left unchanged by `tick`
on every grid.  In the 5×4 universe `exBlock` (block at rows 1–2, columns
1–2) the buggy column offsets make `live_neighbor_count` return 5 for the
block cell `(1, 1)` — it wrongly includes the cell itself and double-counts a
column — where the toroidal count described by the spec is 3, so the block
cell dies and the grid changes. -/
theorem claim4_block_not_stable :
    exBlock.live_neighbor_count 1 1 = 5 ∧
    exBlock.spec_live_neighbor_count 1 1 = 3 ∧
    exBlock.tick ≠ exBlock := by
  refine ⟨by decide, by decide, by decide⟩

/-- C5: `set_width` sets the width, keeps the height, and reallocates the
cells to `new_width * height` entries, all `Dead`; `set_height`
symmetrically. -/
theorem claim5_resize (u : Universe) (w h : Nat) :
    (u.set_width w).width = w ∧ (u.set_width w).height = u.height ∧
    (u.set_width w).cells = List.replicate (w * u.height) Cell.Dead ∧
    (u.set_height h).width = u.width ∧ (u.set_height h).height = h ∧
    (u.set_height h).cells = List.replicate (u.width * h) Cell.Dead := by
  refine ⟨rfl, rfl, ?_, rfl, rfl, ?_⟩ <;>
    simp [Universe.set_width, Universe.set_height, List.map_const']

/-- C6: toggling an in-range cell twice restores the whole universe (that
cell back to its original state, all other cells and both dimensions
untouched). -/
theorem claim6_toggle_involutive (u : Universe) (r c : Nat) (hu : u.GoodDims)
    (hr : r < u.height) (hc : c < u.width) :
    ∃ v, u.toggle_cell r c = some v ∧ v.toggle_cell r c = some u := by
  obtain ⟨W, H, cs⟩ := u
  simp only [Universe.GoodDims] at hu
  have hidx : r * W + c < cs.length := by rw [hu]; exact index_lt hr hc
  refine ⟨⟨W, H, cs.set (r * W + c) ((cs.get ⟨r * W + c, hidx⟩).toggle)⟩, ?_, ?_⟩
  · simp only [Universe.toggle_cell, Universe.get_index]
    rw [dif_pos hidx]
  · have hlen : (cs.set (r * W + c) ((cs.get ⟨r * W + c, hidx⟩).toggle)).length
        = cs.length := by simp
    simp only [Universe.toggle_cell, Universe.get_index]
    rw [dif_pos (show r * W + c < _ by rw [hlen]; exact hidx)]
    simp only [Option.some.injEq, Universe.mk.injEq, true_and]
    simp only [List.get_eq_getElem]
    rw [List.getElem_set_self (by simpa using hidx), Cell.toggle_toggle,
      List.set_set]
    exact set_self_eq cs (r * W + c) hidx

/-- Witness for C6 at the 1×1 universe, cell `(0, 0)`. -/
theorem claim6_witness :
    exOne.GoodDims ∧ 0 < exOne.height ∧ 0 < exOne.width ∧
    ∃ v, exOne.toggle_cell 0 0 = some v ∧ v.toggle_cell 0 0 = some exOne :=
  ⟨by decide, by decide, by decide,
   claim6_toggle_involutive exOne 0 0 (by decide) (by decide) (by decide)⟩

/-- C7: `new` builds a 64×64 universe whose i-th cell is `Dead` exactly when
the i-th random sample exceeds 1/2 (`randomCell`), one sample per cell;
`reset` re-randomizes every cell with the same per-cell map while keeping the
current width and height. -/
theorem claim7_random_fill (rand rand2 : Nat → ℚ) (u : Universe) (i j : Nat)
    (hi : i < 64 * 64) (hj : j < u.width * u.height) :
    (Universe.new rand).width = 64 ∧ (Universe.new rand).height = 64 ∧
    (Universe.new rand).cells.length = 64 * 64 ∧
    (Universe.new rand).cells.getD i Cell.Dead = randomCell (rand i) ∧
    (u.reset rand2).width = u.width ∧ (u.reset rand2).height = u.height ∧
    (u.reset rand2).cells.length = u.width * u.height ∧
    (u.reset rand2).cells.getD j Cell.Dead = randomCell (rand2 j) := by
  refine ⟨rfl, rfl, by simp [Universe.new], ?_, rfl, rfl, by simp [Universe.reset], ?_⟩
  · simp [Universe.new, List.getD_eq_getElem?_getD, List.getElem?_map,
      List.getElem?_range hi]
  · simp [Universe.reset, List.getD_eq_getElem?_getD, List.getElem?_map,
      List.getElem?_range hj]

/-- Witness for C7: cell 0 of a fresh universe whose every sample is 1
(so the cell is `Dead`), and cell 0 of a reset 1×1 universe whose sample is 0
(so the cell is `Alive`). -/
theorem claim7_witness :
    0 < 64 * 64 ∧ 0 < exOne.width * exOne.height ∧
    ((Universe.new fun _ => 1).width = 64 ∧
     (Universe.new fun _ => 1).height = 64 ∧
     (Universe.new fun _ => 1).cells.length = 64 * 64 ∧
     (Universe.new fun _ => 1).cells.getD 0 Cell.Dead = randomCell 1 ∧
     (exOne.reset fun _ => 0).width = exOne.width ∧
     (exOne.reset fun _ => 0).height = exOne.height ∧
     (exOne.reset fun _ => 0).cells.length = exOne.width * exOne.height ∧
     (exOne.reset fun _ => 0).cells.getD 0 Cell.Dead = randomCell 0) :=
  ⟨by decide, by decide,
   claim7_random_fill (fun _ => 1) (fun _ => 0) exOne 0 0 (by decide) (by decide)⟩

/-- C8: for a universe with positive width (and the length invariant),
`render` succeeds and its output is exactly `height` newline-terminated lines
in row order, the r-th line being the `width` glyphs of row r — `'◻'` for a
dead cell, `'◼'` for a live one. -/
theorem claim8_render (u : Universe) (hw : 1 ≤ u.width) (hu : u.GoodDims) :
    u.render = some ((List.range u.height).map (fun r =>
      ((List.range u.width).map fun c =>
        glyph (u.cells.getD (r * u.width + c) Cell.Dead)) ++ ['\n'])).flatten := by
  unfold Universe.render
  rw [if_neg (by omega)]
  congr 1
  rw [chunksGo_eq u.width hw u.height u.cells hu, foldl_glyph_join,
    List.nil_append, List.map_map]
  congr 1
  apply List.map_congr_left
  intro r hrmem
  have hr : r < u.height := List.mem_range.mp hrmem
  have hbound : r * u.width + u.width ≤ u.cells.length := by
    rw [hu, Nat.mul_comm u.width u.height]
    calc r * u.width + u.width = (r + 1) * u.width := (Nat.succ_mul r u.width).symm
      _ ≤ u.height * u.width := Nat.mul_le_mul_right u.width hr
  simp only [Function.comp_apply]
  rw [take_drop_eq_map_getD u.cells (r * u.width) u.width hbound, List.map_map]
  rfl

/-- Witness for C8 at the 1×1 all-dead universe. -/
theorem claim8_witness :
    1 ≤ exOne.width ∧ exOne.GoodDims ∧
    exOne.render = some ((List.range exOne.height).map (fun r =>
      ((List.range exOne.width).map fun c =>
        glyph (exOne.cells.getD (r * exOne.width + c) Cell.Dead)) ++ ['\n'])).flatten :=
  ⟨by decide, by decide, claim8_render exOne (by decide) (by decide)⟩

/-- C9: `toggle_cell(0, width)` on a universe with `height ≥ 2` and
`width ≥ 1` does not fail: the unchecked flat index `0 * width + width` is
still inside the buffer and equals the index of row 1, column 0, so the call
succeeds and behaves exactly as toggling cell `(1, 0)`. -/
theorem claim9_toggle_aliases (u : Universe) (hu : u.GoodDims)
    (hh : 2 ≤ u.height) (hw : 1 ≤ u.width) :
    (∃ v, u.toggle_cell 0 u.width = some v) ∧
    u.toggle_cell 0 u.width = u.toggle_cell 1 0 := by
  have hidx : u.get_index 0 u.width < u.cells.length := by
    rw [hu]
    have h2 : u.width * 2 ≤ u.width * u.height := Nat.mul_le_mul_left u.width hh
    unfold Universe.get_index
    omega
  have heq : u.get_index 0 u.width = u.get_index 1 0 := by
    unfold Universe.get_index
    omega
  constructor
  · simp only [Universe.toggle_cell]
    rw [dif_pos hidx]
    exact ⟨_, rfl⟩
  · unfold Universe.toggle_cell
    rw [heq]

/-- Witness for C9 at the 2×1 all-dead universe: toggling `(0, 1)` succeeds
and equals toggling `(1, 0)`. -/
theorem claim9_witness :
    exTall.GoodDims ∧ 2 ≤ exTall.height ∧ 1 ≤ exTall.width ∧
    ((∃ v, exTall.toggle_cell 0 exTall.width = some v) ∧
     exTall.toggle_cell 0 exTall.width = exTall.toggle_cell 1 0) :=
  ⟨by decide, by decide, by decide,
   claim9_toggle_aliases exTall (by decide) (by decide) (by decide)⟩

/-- C10: after `set_width(0)` the width is 0 and `render` panics (`none`)
instead of returning an empty string, because the row chunking requires a
non-zero chunk size. -/
theorem claim10_render_zero_width (u : Universe) :
    (u.set_width 0).width = 0 ∧ (u.set_width 0).render = none := by
  constructor
  · rfl
  · simp [Universe.render, Universe.set_width]
